import Mathlib

/-!
Shallow embedding of `src/main.py`, a PPE (personal protective equipment)
detection dashboard: a detection loop (`cv_loop`) derives a status snapshot
from detected labels and publishes it to a shared dict and a shared frame
slot; an HTTP server serves the status as JSON, a static page, and an MJPEG
stream; a rate-limited forwarder pushes the status to an ESP32 device.

Strings manipulated as byte sequences are modelled as `List Nat`
(byte values); wall-clock times and durations as `ℚ`.
-/

/-- Bytes of a UTF-8-free ASCII string, as code points. -/
def strBytes (s : String) : List Nat := s.data.map Char.toNat

/-- `SEND_INTERVAL = 1.0` from the configuration section of `main.py`. -/
def SEND_INTERVAL : ℚ := 1

/-- The `timeout=0.5` argument of the `requests.post` call in `cv_loop`. -/
def POST_TIMEOUT : ℚ := 1 / 2

/-- `HTML_FILE_PATH = "index.html"` from the configuration section. -/
def HTML_FILE_PATH : String := "index.html"

/-! ## Label matching (Python's `"needle" in label` substring test) -/

/-- `leadsWith n h` holds when `n` is an initial segment of `h`. -/
def leadsWith : List Char → List Char → Bool
  | [], _ => true
  | _ :: _, [] => false
  | a :: as, b :: bs => (a == b) && leadsWith as bs

/-- Python's `needle in hay` substring containment on strings. -/
def hasSub (needle : List Char) : List Char → Bool
  | [] => leadsWith needle []
  | c :: rest => leadsWith needle (c :: rest) || hasSub needle rest

/-- The absence label checked for the hardhat flag in `cv_loop`. -/
def NO_HARDHAT : List Char := "NO-Hardhat".data

/-- The absence label checked for the vest flag in `cv_loop`. -/
def NO_VEST : List Char := "NO-Safety Vest".data

/-- The absence label checked for the mask flag in `cv_loop`. -/
def NO_MASK : List Char := "NO-Mask".data

/-! ## Per-cycle status derivation (`cv_loop` section 4.1) -/

/-- The `ppe_status_local` record built by one detection cycle. -/
structure PPEStatus where
  hardhat : Nat
  vest : Nat
  mask : Nat
  deriving DecidableEq

/-- One iteration of the `for box in results[0].boxes` body: set a flag to
`0` when the box label contains the corresponding absence substring. -/
def applyLabel (st : PPEStatus) (label : List Char) : PPEStatus :=
  let st1 := if hasSub NO_HARDHAT label then { st with hardhat := 0 } else st
  let st2 := if hasSub NO_VEST label then { st1 with vest := 0 } else st1
  if hasSub NO_MASK label then { st2 with mask := 0 } else st2

/-- The status snapshot derived from the ordered list of detected labels:
all flags default to `1`, then every label is applied in order. -/
def ppeStatusOf (labels : List (List Char)) : PPEStatus :=
  labels.foldl applyLabel ⟨1, 1, 1⟩

theorem PPEStatus.ext_fields (a b : PPEStatus) (h1 : a.hardhat = b.hardhat)
    (h2 : a.vest = b.vest) (h3 : a.mask = b.mask) : a = b := by
  cases a; cases b; simp_all

theorem applyLabel_hardhat (st : PPEStatus) (l : List Char) :
    (applyLabel st l).hardhat = if hasSub NO_HARDHAT l then 0 else st.hardhat := by
  unfold applyLabel
  by_cases h1 : hasSub NO_HARDHAT l <;> by_cases h2 : hasSub NO_VEST l <;>
    by_cases h3 : hasSub NO_MASK l <;> simp [h1, h2, h3]

theorem applyLabel_vest (st : PPEStatus) (l : List Char) :
    (applyLabel st l).vest = if hasSub NO_VEST l then 0 else st.vest := by
  unfold applyLabel
  by_cases h1 : hasSub NO_HARDHAT l <;> by_cases h2 : hasSub NO_VEST l <;>
    by_cases h3 : hasSub NO_MASK l <;> simp [h1, h2, h3]

theorem applyLabel_mask (st : PPEStatus) (l : List Char) :
    (applyLabel st l).mask = if hasSub NO_MASK l then 0 else st.mask := by
  unfold applyLabel
  by_cases h1 : hasSub NO_HARDHAT l <;> by_cases h2 : hasSub NO_VEST l <;>
    by_cases h3 : hasSub NO_MASK l <;> simp [h1, h2, h3]

theorem foldl_applyLabel_hardhat (labels : List (List Char)) (st : PPEStatus) :
    (labels.foldl applyLabel st).hardhat =
      if labels.any (hasSub NO_HARDHAT) then 0 else st.hardhat := by
  induction labels generalizing st with
  | nil => simp
  | cons l t ih =>
    rw [List.foldl_cons, ih, List.any_cons, applyLabel_hardhat]
    cases h1 : hasSub NO_HARDHAT l <;> cases h2 : t.any (hasSub NO_HARDHAT) <;>
      simp [h1, h2]

theorem foldl_applyLabel_vest (labels : List (List Char)) (st : PPEStatus) :
    (labels.foldl applyLabel st).vest =
      if labels.any (hasSub NO_VEST) then 0 else st.vest := by
  induction labels generalizing st with
  | nil => simp
  | cons l t ih =>
    rw [List.foldl_cons, ih, List.any_cons, applyLabel_vest]
    cases h1 : hasSub NO_VEST l <;> cases h2 : t.any (hasSub NO_VEST) <;>
      simp [h1, h2]

theorem foldl_applyLabel_mask (labels : List (List Char)) (st : PPEStatus) :
    (labels.foldl applyLabel st).mask =
      if labels.any (hasSub NO_MASK) then 0 else st.mask := by
  induction labels generalizing st with
  | nil => simp
  | cons l t ih =>
    rw [List.foldl_cons, ih, List.any_cons, applyLabel_mask]
    cases h1 : hasSub NO_MASK l <;> cases h2 : t.any (hasSub NO_MASK) <;>
      simp [h1, h2]

/-- Closed form of the status derivation: each flag is `0` exactly when some
detected label contains that item's absence substring, and `1` otherwise. -/
theorem ppeStatusOf_eq (labels : List (List Char)) :
    ppeStatusOf labels =
      { hardhat := if labels.any (hasSub NO_HARDHAT) then 0 else 1
        vest := if labels.any (hasSub NO_VEST) then 0 else 1
        mask := if labels.any (hasSub NO_MASK) then 0 else 1 } := by
  refine PPEStatus.ext_fields _ _ ?_ ?_ ?_
  · exact foldl_applyLabel_hardhat labels ⟨1, 1, 1⟩
  · exact foldl_applyLabel_vest labels ⟨1, 1, 1⟩
  · exact foldl_applyLabel_mask labels ⟨1, 1, 1⟩

theorem ppeStatusOf_le_one (labels : List (List Char)) :
    (ppeStatusOf labels).hardhat ≤ 1 ∧ (ppeStatusOf labels).vest ≤ 1 ∧
      (ppeStatusOf labels).mask ≤ 1 := by
  rw [ppeStatusOf_eq]
  refine ⟨?_, ?_, ?_⟩ <;> dsimp only <;> split <;> omega

/-! ## The shared status dict (`current_ppe_status`) and its update path -/

/-- A value stored in the status dict: an item flag or the timestamp. -/
inductive Val
  | flag (n : Nat)
  | time (t : ℚ)
  deriving DecidableEq

/-- Python dict with string keys, as an insertion-ordered association list. -/
abbrev Dict := List (String × Val)

/-- Python `d[k] = v`: replace in place when the key is present, else append. -/
def dictSet (d : Dict) (k : String) (v : Val) : Dict :=
  if d.any (fun p => p.1 == k) then
    d.map (fun p => if p.1 == k then (p.1, v) else p)
  else d ++ [(k, v)]

/-- Python `d.update(o)`: set every key of `o` in order. -/
def dictUpdate (d : Dict) (o : Dict) : Dict :=
  o.foldl (fun acc p => dictSet acc p.1 p.2) d

/-- The module-load initializer of `current_ppe_status`: all items present,
timestamp the store-creation time `t0`. -/
def statusInit (t0 : ℚ) : Dict :=
  [("hardhat", Val.flag 1), ("vest", Val.flag 1), ("mask", Val.flag 1),
   ("timestamp", Val.time t0)]

/-- The `ppe_status_local` dict a cycle passes to `update`. -/
def localStatusDict (labels : List (List Char)) : Dict :=
  [("hardhat", Val.flag (ppeStatusOf labels).hardhat),
   ("vest", Val.flag (ppeStatusOf labels).vest),
   ("mask", Val.flag (ppeStatusOf labels).mask)]

/-- Section 4.2 of `cv_loop`: `current_ppe_status.update(ppe_status_local)`
followed by `current_ppe_status["timestamp"] = time.time()`, for one cycle
with detected labels `p.1` at time `p.2`. -/
def publishStep (d : Dict) (p : List (List Char) × ℚ) : Dict :=
  dictSet (dictUpdate d (localStatusDict p.1)) "timestamp" (Val.time p.2)

/-- The shared status dict after a sequence of detection cycles, starting
from the store created at time `t0`. -/
def statusAfter (t0 : ℚ) (pubs : List (List (List Char) × ℚ)) : Dict :=
  pubs.foldl publishStep (statusInit t0)

/-- The shape every reachable status dict has: exactly the three item keys
plus the timestamp, in insertion order, with flags at most `1`. -/
def goodShape (d : Dict) : Prop :=
  ∃ h v m t, d = [("hardhat", Val.flag h), ("vest", Val.flag v),
    ("mask", Val.flag m), ("timestamp", Val.time t)] ∧ h ≤ 1 ∧ v ≤ 1 ∧ m ≤ 1

theorem publishStep_explicit (h v m : Nat) (t : ℚ) (labels : List (List Char))
    (tm : ℚ) :
    publishStep [("hardhat", Val.flag h), ("vest", Val.flag v),
        ("mask", Val.flag m), ("timestamp", Val.time t)] (labels, tm) =
      [("hardhat", Val.flag (ppeStatusOf labels).hardhat),
       ("vest", Val.flag (ppeStatusOf labels).vest),
       ("mask", Val.flag (ppeStatusOf labels).mask),
       ("timestamp", Val.time tm)] := rfl

theorem foldl_publishStep_shape (pubs : List (List (List Char) × ℚ))
    (d : Dict) (hd : goodShape d) : goodShape (pubs.foldl publishStep d) := by
  induction pubs generalizing d with
  | nil => exact hd
  | cons p t ih =>
    obtain ⟨h, v, m, tt, rfl, _, _, _⟩ := hd
    rw [List.foldl_cons]
    apply ih
    obtain ⟨labels, tm⟩ := p
    rw [publishStep_explicit]
    exact ⟨(ppeStatusOf labels).hardhat, (ppeStatusOf labels).vest,
      (ppeStatusOf labels).mask, tm, rfl, (ppeStatusOf_le_one labels).1,
      (ppeStatusOf_le_one labels).2.1, (ppeStatusOf_le_one labels).2.2⟩

theorem statusAfter_shape (t0 : ℚ) (pubs : List (List (List Char) × ℚ)) :
    goodShape (statusAfter t0 pubs) :=
  foldl_publishStep_shape pubs (statusInit t0)
    ⟨1, 1, 1, t0, rfl, le_refl 1, le_refl 1, le_refl 1⟩

/-! ## The forwarder block (`cv_loop` section 4.3) -/

/-- A Python exception class relevant to the `try`/`except` chain. -/
inductive PyExc
  | timeoutExc
  | connErrorExc
  | otherExc
  deriving DecidableEq

/-- Possible outcomes of the `requests.post` call to the ESP32. -/
inductive PostOutcome
  | resp (status : Nat)
  | timedOut
  | connFailed
  | raisedOther
  deriving DecidableEq

/-- Console messages printed by the forwarder block. -/
inductive LogMsg
  | warnStatus (s : Nat)
  | errConnect
  | errSend
  deriving DecidableEq

/-- `requests.post(ESP32_URL, ...)`: returns the response status or raises. -/
def requestsPost : PostOutcome → Except PyExc Nat
  | .resp s => .ok s
  | .timedOut => .error .timeoutExc
  | .connFailed => .error .connErrorExc
  | .raisedOther => .error .otherExc

/-- The `try` body: post, then warn when the status code is not 200. -/
def tryBody (o : PostOutcome) : Except PyExc (List LogMsg) :=
  match requestsPost o with
  | .error e => .error e
  | .ok s => .ok (if s ≠ 200 then [.warnStatus s] else [])

/-- `except (requests.exceptions.Timeout, requests.exceptions.ConnectionError)`. -/
def catchNetErrors : Except PyExc (List LogMsg) → Except PyExc (List LogMsg)
  | .error .timeoutExc => .ok [.errConnect]
  | .error .connErrorExc => .ok [.errConnect]
  | r => r

/-- `except Exception as e`: catches whatever the first handler did not. -/
def catchAllErrors : Except PyExc (List LogMsg) → Except PyExc (List LogMsg)
  | .error _ => .ok [.errSend]
  | r => r

/-- One send attempt with both `except` clauses applied, in source order. -/
def sendAttempt (o : PostOutcome) : Except PyExc (List LogMsg) :=
  catchAllErrors (catchNetErrors (tryBody o))

/-- Section 4.3 of `cv_loop`: when the interval has elapsed, attempt the
post and then set `last_send = current_time`; an uncaught exception would
propagate as `.error` and skip the timer reset. Returns the new `last_send`
and the printed messages. -/
def forwardBlock (o : PostOutcome) (lastSend now : ℚ) :
    Except PyExc (ℚ × List LogMsg) :=
  if now - lastSend > SEND_INTERVAL then
    match sendAttempt o with
    | .ok logs => .ok (now, logs)
    | .error e => .error e
  else .ok (lastSend, [])

/-! ## HTTP responses: static page, status JSON, MJPEG stream -/

/-- A plain HTTP response with a byte body. -/
structure HttpResp where
  status : Nat
  headers : List (String × String)
  body : List Nat
  deriving DecidableEq

/-- Outcome of opening and reading `index.html` in `_load_html_content`. -/
inductive LoadRes
  | ok (content : List Nat)
  | fileNotFound
  | otherErr (msg : String)

/-- `_load_html_content`: the file bytes on success, a printed error message
as the returned bytes on `FileNotFoundError` or any other exception. -/
def loadHtmlContent : LoadRes → List Nat
  | .ok c => c
  | .fileNotFound =>
      strBytes ("Error: " ++ HTML_FILE_PATH ++
        " not found. Ensure it is in the same directory.")
  | .otherErr e => strBytes ("Error reading " ++ HTML_FILE_PATH ++ ": " ++ e)

/-- `_send_html`: sends 200 and the content-type header before loading, then
writes whatever `_load_html_content` returned as the body. -/
def sendHtml (r : LoadRes) : HttpResp :=
  { status := 200
    headers := [("Content-type", "text/html; charset=utf-8")]
    body := loadHtmlContent r }

/-- `True` exactly for HTTP status codes in the 4xx/5xx error classes. -/
def isErrorStatus (s : Nat) : Bool := decide (400 ≤ s)

/-- `.copy()` on a Python dict, as used by `_send_status_json`. -/
def dictCopy (d : Dict) : Dict := d

/-- The `/status` response with a structured (pre-serialization) body. -/
structure StatusResp where
  status : Nat
  headers : List (String × String)
  body : Dict
  deriving DecidableEq

/-- `_send_status_json`: 200, JSON content type, permissive CORS header, and
the copy of `current_ppe_status` taken under `status_lock` as the body. -/
def sendStatusJson (d : Dict) : StatusResp :=
  { status := 200
    headers := [("Content-type", "application/json"),
                ("Access-Control-Allow-Origin", "*")]
    body := dictCopy d }

/-- One `self.send_header(k, v)` call: the bytes `k: v\r\n` it buffers. -/
def sendHeaderBytes (k v : String) : List Nat := strBytes (k ++ ": " ++ v ++ "\r\n")

/-- The bytes of one multipart part as written by `_send_video_feed`:
boundary line, the two buffered headers, the blank line flushed by
`end_headers`, the JPEG payload, and the trailing CRLF. -/
def mkPart (payload : List Nat) : List Nat :=
  strBytes "--frame\r\n"
    ++ sendHeaderBytes "Content-Type" "image/jpeg"
    ++ sendHeaderBytes "Content-Length" (toString payload.length)
    ++ strBytes "\r\n"
    ++ payload
    ++ strBytes "\r\n"

/-- What one iteration of the `_send_video_feed` loop does. -/
inductive FeedStep
  | wait (ms : Nat)
  | skip
  | part (bytes : List Nat)
  | closed
  deriving DecidableEq

/-- One iteration of the stream loop over a frame type `F`: no frame yet →
sleep 100 ms and retry; encode failure → skip the frame; otherwise write the
multipart part (a failed socket write raises and closes the connection). -/
def videoFeedStep {F : Type} (fr : Option F) (enc : F → Option (List Nat))
    (writeOk : Bool) : FeedStep :=
  match fr with
  | none => .wait 100
  | some f =>
    match enc f with
    | none => .skip
    | some payload => if writeOk then .part (mkPart payload) else .closed

/-- The bytes an iteration writes to the client socket. -/
def stepOutput : FeedStep → List Nat
  | .part bs => bs
  | _ => []

/-- Whether the loop goes on to the next iteration (only an exception in the
write path ends the connection). -/
def stepContinues : FeedStep → Bool
  | .closed => false
  | _ => true

/-! ## Lock-discipline traces -/

/-- The two module-level locks of `main.py`. -/
inductive Lk
  | statusL
  | frameL
  deriving DecidableEq

/-- Atomic events of the loops and handlers, in program order. -/
inductive Ev
  | acq (l : Lk)
  | rel (l : Lk)
  | sleepMs (n : Nat)
  | netWrite
  | fileRead
  | copyStatus
  | copyFrame
  | writeStatus
  | writeFrame
  | capture
  | infer
  | encodeJpg
  | postReq
  | imshow
  | waitKey
  | spawnThread
  deriving DecidableEq

/-- Pair each event with the set of locks held while it happens. -/
def heldDuring : List Lk → List Ev → List (Ev × List Lk)
  | _, [] => []
  | held, .acq l :: t => (.acq l, held) :: heldDuring (l :: held) t
  | held, .rel l :: t => (.rel l, held.erase l) :: heldDuring (held.erase l) t
  | held, e :: t => (e, held) :: heldDuring held t

/-- Some event satisfying `p` happens while lock `l` is held. -/
def underLock (tr : List Ev) (p : Ev → Bool) (l : Lk) : Bool :=
  (heldDuring [] tr).any (fun x => p x.1 && x.2.any (fun k => k == l))

/-- Sleeping events. -/
def isSleepEv : Ev → Bool
  | .sleepMs _ => true
  | _ => false

/-- Network and disk events: socket writes to clients, the blocking ESP32
`requests.post`, and file reads. -/
def isIOEv : Ev → Bool
  | .netWrite => true
  | .fileRead => true
  | .postReq => true
  | _ => false

/-- Accesses that merely copy a value out of, or write a value into, one of
the two shared stores — the only work a short critical section may do. -/
def isStoreAccessEv : Ev → Bool
  | .copyStatus => true
  | .copyFrame => true
  | .writeStatus => true
  | .writeFrame => true
  | _ => false

/-- The blocking ESP32 post. -/
def isPostEv : Ev → Bool
  | .postReq => true
  | _ => false

/-- Thread-spawn events (none occur inside the loops of `main.py`). -/
def isSpawnEv : Ev → Bool
  | .spawnThread => true
  | _ => false

/-- Event trace of one `_send_video_feed` loop iteration. With no frame
published, the handler sleeps 0.1 s and then `continue` releases the lock;
with a frame, it copies under the lock, releases, encodes, and on encode
success writes the three chunks of the part and paces at ~30 FPS. -/
def videoFeedIterTrace (avail : Bool) (encOk : Bool) : List Ev :=
  if avail then
    [.acq .frameL, .copyFrame, .rel .frameL, .encodeJpg]
      ++ (if encOk then [.netWrite, .netWrite, .netWrite, .sleepMs 33] else [])
  else
    [.acq .frameL, .sleepMs 100, .rel .frameL]

/-- Event trace of `_send_status_json`: response line and headers, then the
copy under `status_lock`, then the body write outside the lock. -/
def statusJsonTrace : List Ev :=
  [.netWrite, .acq .statusL, .copyStatus, .rel .statusL, .netWrite]

/-- Event trace of `_send_html`: headers, the file read, the body write. -/
def htmlTrace : List Ev :=
  [.netWrite, .fileRead, .netWrite]

/-- Event trace of one `cv_loop` iteration: capture, inference, the two
store publishes each under their own lock, the debug window update, the
inline ESP32 post when the interval has elapsed, and the key poll. -/
def cvIterTrace (due : Bool) : List Ev :=
  [.capture, .infer, .acq .statusL, .writeStatus, .rel .statusL,
   .acq .frameL, .writeFrame, .rel .frameL, .imshow]
    ++ (if due then [.postReq] else [])
    ++ [.waitKey]

/-! ## Claims -/

/-- C1: For every detection cycle, the status snapshot defaults every
recognized item (hardhat, vest, mask) to present (`1`) and, for each
detected region, sets an item's flag to missing (`0`) iff the region's
label contains that item's absence substring; presence labels and unrelated
detections leave the flags unchanged. -/
theorem c1_status_derivation (labels : List (List Char)) :
    ((ppeStatusOf labels).hardhat
        = if labels.any (hasSub NO_HARDHAT) then 0 else 1)
  ∧ ((ppeStatusOf labels).vest
        = if labels.any (hasSub NO_VEST) then 0 else 1)
  ∧ ((ppeStatusOf labels).mask
        = if labels.any (hasSub NO_MASK) then 0 else 1) := by
  rw [ppeStatusOf_eq]
  exact ⟨rfl, rfl, rfl⟩

/-- C2: Every failure of the forwarder push — non-200 response, timeout,
connection failure, or any other exception — is caught and only logged
(never propagated: the block always returns `.ok`), and `last_send` is
reset to the current time after the attempt regardless of the outcome. -/
theorem c2_forwarder_failures_contained (o : PostOutcome) (lastSend now : ℚ)
    (hdue : now - lastSend > SEND_INTERVAL) :
    ∃ logs, forwardBlock o lastSend now = .ok (now, logs)
      ∧ (o ≠ .resp 200 → logs ≠ []) := by
  unfold forwardBlock
  rw [if_pos hdue]
  cases o with
  | resp s =>
    by_cases hs : s = 200
    · subst hs
      exact ⟨[], rfl, fun hne => absurd rfl hne⟩
    · refine ⟨[.warnStatus s], ?_, fun _ => by simp⟩
      simp [sendAttempt, tryBody, requestsPost, catchNetErrors,
        catchAllErrors, hs]
  | timedOut => exact ⟨[.errConnect], rfl, fun _ => by simp⟩
  | connFailed => exact ⟨[.errConnect], rfl, fun _ => by simp⟩
  | raisedOther => exact ⟨[.errSend], rfl, fun _ => by simp⟩

/-- C2 witness: a timed-out push two seconds after the last send is caught,
logged, and resets the timer. -/
theorem c2_forwarder_failures_contained_witness :
    ∃ logs, forwardBlock PostOutcome.timedOut 0 2 = .ok (2, logs)
      ∧ (PostOutcome.timedOut ≠ PostOutcome.resp 200 → logs ≠ []) :=
  c2_forwarder_failures_contained PostOutcome.timedOut 0 2
    (by norm_num [SEND_INTERVAL])

/-- C3 counterexample: the claim that no store lock is ever held across a
sleep fails — in the stream handler's no-frame branch, the 0.1 s sleep of
the wait-and-retry happens while `frame_lock` is held. -/
theorem c3_lock_across_sleep_cex :
    underLock (videoFeedIterTrace false true) isSleepEv Lk.frameL = true := by
  decide

/-- C3 amended: no store lock is ever held across a network operation
(client socket writes or the blocking ESP32 post) or a disk read; every
critical section other than the stream handler's no-frame wait performs
only store copy or store write accesses, with no sleep; the no-frame wait,
however, sleeps while holding `frame_lock`, and that sleep is the only
non-store work it does under the lock. -/
theorem c3_amended_lock_discipline :
    (∀ avail encOk : Bool, ∀ l : Lk,
        underLock (videoFeedIterTrace avail encOk) isIOEv l = false)
  ∧ (∀ due : Bool, ∀ l : Lk, underLock (cvIterTrace due) isIOEv l = false
        ∧ underLock (cvIterTrace due) isSleepEv l = false
        ∧ underLock (cvIterTrace due)
            (fun e => !(isStoreAccessEv e)) l = false)
  ∧ (∀ l : Lk, underLock statusJsonTrace isIOEv l = false
        ∧ underLock statusJsonTrace isSleepEv l = false
        ∧ underLock statusJsonTrace
            (fun e => !(isStoreAccessEv e)) l = false)
  ∧ (∀ l : Lk, underLock htmlTrace isIOEv l = false
        ∧ underLock htmlTrace isSleepEv l = false
        ∧ underLock htmlTrace (fun e => !(isStoreAccessEv e)) l = false)
  ∧ (∀ encOk : Bool, ∀ l : Lk,
        underLock (videoFeedIterTrace true encOk) isSleepEv l = false
        ∧ underLock (videoFeedIterTrace true encOk)
            (fun e => !(isStoreAccessEv e)) l = false)
  ∧ (∀ encOk : Bool, ∀ l : Lk,
        underLock (videoFeedIterTrace false encOk)
          (fun e => !(isStoreAccessEv e) && !(isSleepEv e)) l = false) := by
  refine ⟨?_, ?_, ?_, ?_, ?_, ?_⟩
  · intro a b l; cases a <;> cases b <;> cases l <;> decide
  · intro d l; cases d <;> cases l <;> exact ⟨by decide, by decide, by decide⟩
  · intro l; cases l <;> exact ⟨by decide, by decide, by decide⟩
  · intro l; cases l <;> exact ⟨by decide, by decide, by decide⟩
  · intro b l; cases b <;> cases l <;> exact ⟨by decide, by decide⟩
  · intro b l; cases b <;> cases l <;> decide

/-- C4 counterexample: the claim that the forwarder is invoked
asynchronously fails — when the interval has elapsed, the ESP32 post occurs
inline in the pipeline's own sequential iteration trace, with no thread
spawned for it. -/
theorem c4_async_forward_cex :
    (cvIterTrace true).any isPostEv = true
  ∧ (cvIterTrace true).any isSpawnEv = false :=
  ⟨by decide, by decide⟩

/-- C4 amended: when the forward interval has elapsed, the forwarder runs
synchronously in the pipeline thread, before the next capture, and no
thread is spawned for it; the blocking time is bounded by the 0.5 s request
timeout, and no post occurs when the interval has not elapsed. -/
theorem c4_amended_sync_bounded_forward :
    (∀ due : Bool, (cvIterTrace due).any isPostEv = due)
  ∧ (∀ due : Bool, (cvIterTrace due).any isSpawnEv = false)
  ∧ POST_TIMEOUT = 1 / 2 := by
  refine ⟨?_, ?_, rfl⟩ <;> (intro d; cases d <;> decide)

/-- C5: At every reachable program point — before the first detection cycle
and after every publish — the status dict holds exactly the keys hardhat,
vest, mask, timestamp with every item flag in `{0, 1}`; unknown keys are
never added, and before the first publish all items are present with the
timestamp equal to the store-creation time. -/
theorem c5_status_dict_invariant (t0 : ℚ)
    (pubs : List (List (List Char) × ℚ)) :
    (∃ h v m t, statusAfter t0 pubs
        = [("hardhat", Val.flag h), ("vest", Val.flag v),
           ("mask", Val.flag m), ("timestamp", Val.time t)]
        ∧ h ≤ 1 ∧ v ≤ 1 ∧ m ≤ 1)
  ∧ (statusAfter t0 pubs).map Prod.fst
      = ["hardhat", "vest", "mask", "timestamp"]
  ∧ statusAfter t0 []
      = [("hardhat", Val.flag 1), ("vest", Val.flag 1), ("mask", Val.flag 1),
         ("timestamp", Val.time t0)] := by
  obtain ⟨h, v, m, t, heq, h1, h2, h3⟩ := statusAfter_shape t0 pubs
  refine ⟨⟨h, v, m, t, heq, h1, h2, h3⟩, ?_, rfl⟩
  rw [heq]
  rfl

/-- C6: On the stream endpoint, with no frame ever published the loop waits
100 ms and retries, writing nothing and never closing; once a frame is
available and encodes to `payload`, the emitted part is exactly the
boundary line, a `Content-Type: image/jpeg` header, a `Content-Length`
header declaring the payload's actual byte length, a blank line, the
payload, and a trailing CRLF. -/
theorem c6_stream_format {F : Type} (enc : F → Option (List Nat)) (f : F)
    (payload : List Nat) (henc : enc f = some payload) :
    (∀ writeOk : Bool,
        videoFeedStep (none : Option F) enc writeOk = .wait 100
      ∧ stepOutput (videoFeedStep (none : Option F) enc writeOk) = []
      ∧ stepContinues (videoFeedStep (none : Option F) enc writeOk) = true)
  ∧ videoFeedStep (some f) enc true =
      .part (strBytes "--frame\r\n"
        ++ sendHeaderBytes "Content-Type" "image/jpeg"
        ++ sendHeaderBytes "Content-Length" (toString payload.length)
        ++ strBytes "\r\n" ++ payload ++ strBytes "\r\n") := by
  constructor
  · intro w; exact ⟨rfl, rfl, rfl⟩
  · simp only [videoFeedStep, henc]
    rfl

/-- C6 witness: with a two-byte JPEG payload, the no-frame branch waits and
the emitted part has the declared length `2`. -/
theorem c6_stream_format_witness :
    (∀ writeOk : Bool,
        videoFeedStep (none : Option Unit) (fun _ => some [65, 66]) writeOk
          = .wait 100
      ∧ stepOutput (videoFeedStep (none : Option Unit)
          (fun _ => some [65, 66]) writeOk) = []
      ∧ stepContinues (videoFeedStep (none : Option Unit)
          (fun _ => some [65, 66]) writeOk) = true)
  ∧ videoFeedStep (some ()) (fun _ => some [65, 66]) true =
      .part (strBytes "--frame\r\n"
        ++ sendHeaderBytes "Content-Type" "image/jpeg"
        ++ sendHeaderBytes "Content-Length"
            (toString ([65, 66] : List Nat).length)
        ++ strBytes "\r\n" ++ [65, 66] ++ strBytes "\r\n") :=
  c6_stream_format (fun _ => some [65, 66]) () [65, 66] rfl

/-- C7 counterexample: the claim that a missing static page yields an error
status code fails — `_send_html` sends 200 before loading, so the
file-not-found response carries status 200, which is not an error status. -/
theorem c7_error_status_cex :
    (sendHtml LoadRes.fileNotFound).status = 200
  ∧ isErrorStatus (sendHtml LoadRes.fileNotFound).status = false :=
  ⟨rfl, rfl⟩

/-- C7 amended: when the static page document cannot be loaded, the
endpoint responds with status 200 and a descriptive error body naming the
file, and the handler returns a normal response for every load outcome, so
the server keeps serving. -/
theorem c7_amended_error_body :
    ((sendHtml LoadRes.fileNotFound).status = 200
      ∧ (sendHtml LoadRes.fileNotFound).body
          = strBytes ("Error: " ++ HTML_FILE_PATH
              ++ " not found. Ensure it is in the same directory."))
  ∧ (∀ e : String, (sendHtml (LoadRes.otherErr e)).status = 200
      ∧ (sendHtml (LoadRes.otherErr e)).body
          = strBytes ("Error reading " ++ HTML_FILE_PATH ++ ": " ++ e))
  ∧ (∀ r : LoadRes, (sendHtml r).status = 200) :=
  ⟨⟨rfl, rfl⟩, fun _ => ⟨rfl, rfl⟩, fun _ => rfl⟩

/-- C8: Status derivation is idempotent in labels: duplicating any detected
label (in particular an absence label) anywhere in the detection list
produces exactly the same status snapshot as a single occurrence. -/
theorem c8_duplicate_labels_idempotent (xs ys : List (List Char))
    (l : List Char) :
    ppeStatusOf (xs ++ l :: l :: ys) = ppeStatusOf (xs ++ l :: ys) := by
  rw [ppeStatusOf_eq, ppeStatusOf_eq]
  have hany : ∀ p : List Char → Bool,
      (xs ++ l :: l :: ys).any p = (xs ++ l :: ys).any p := by
    intro p
    simp only [List.any_append, List.any_cons]
    cases p l <;> simp
  rw [hany, hany, hany]

/-- C9: Every `/status` request returns status 200 with the CORS header
`Access-Control-Allow-Origin: *` and a body that is the copy, taken under
`status_lock`, of the current snapshot — a JSON object with the three item
flags in `{0, 1}` plus the timestamp — and the body write happens outside
the lock. -/
theorem c9_status_endpoint (t0 : ℚ) (pubs : List (List (List Char) × ℚ)) :
    (sendStatusJson (statusAfter t0 pubs)).status = 200
  ∧ ("Access-Control-Allow-Origin", "*")
      ∈ (sendStatusJson (statusAfter t0 pubs)).headers
  ∧ (∃ h v m t, (sendStatusJson (statusAfter t0 pubs)).body
      = [("hardhat", Val.flag h), ("vest", Val.flag v), ("mask", Val.flag m),
         ("timestamp", Val.time t)] ∧ h ≤ 1 ∧ v ≤ 1 ∧ m ≤ 1)
  ∧ (sendStatusJson (statusAfter t0 pubs)).body
      = dictCopy (statusAfter t0 pubs)
  ∧ underLock statusJsonTrace (fun e => e == Ev.copyStatus) Lk.statusL = true
  ∧ (∀ l : Lk, underLock statusJsonTrace isIOEv l = false) := by
  obtain ⟨h, v, m, t, heq, h1, h2, h3⟩ := statusAfter_shape t0 pubs
  refine ⟨rfl, List.Mem.tail _ (List.Mem.head _),
    ⟨h, v, m, t, ?_, h1, h2, h3⟩, rfl, by decide, ?_⟩
  · exact heq
  · intro l; cases l <;> decide

/-- C10: If JPEG encoding of a frame fails in the stream handler, that frame
is silently skipped — no bytes of a part are written — and the connection's
loop continues with the next frame. -/
theorem c10_encode_failure_skips {F : Type} (enc : F → Option (List Nat))
    (f : F) (henc : enc f = none) (writeOk : Bool) :
    videoFeedStep (some f) enc writeOk = .skip
  ∧ stepOutput (videoFeedStep (some f) enc writeOk) = []
  ∧ stepContinues (videoFeedStep (some f) enc writeOk) = true := by
  have h : videoFeedStep (some f) enc writeOk = .skip := by
    simp only [videoFeedStep, henc]
  exact ⟨h, by rw [h]; rfl, by rw [h]; rfl⟩

/-- C10 witness: an encoder that fails on the published frame produces a
skip with no output while the loop continues. -/
theorem c10_encode_failure_skips_witness :
    videoFeedStep (some ()) (fun _ : Unit => none) true = .skip
  ∧ stepOutput (videoFeedStep (some ()) (fun _ : Unit => none) true) = []
  ∧ stepContinues (videoFeedStep (some ()) (fun _ : Unit => none) true)
      = true :=
  c10_encode_failure_skips (fun _ : Unit => none) () rfl true
